import Mathlib

/-!
Verification of the code-analysis orchestration service (`src/code_lint.py`)
and the arithmetic helper `fast_power` (`src/calculate.py`).

The Python code is shallowly embedded:
* stateful service methods become pure functions over an explicit registry
  (an insertion-ordered association list mirroring a Python `dict`);
* the external world (file system, child processes) is passed in as oracles:
  `fsExists : String → Bool` for `os.path.exists`, and
  `exec : List String → ExecOutcome` for `subprocess.run` on a full argv —
  an `ExecOutcome.failed` value models `subprocess.run` raising an exception;
* fallible Python code (`os.unlink`, the `try/finally` of `lint_code`,
  `fast_power`'s `ValueError`) returns `Except`.
Newlines are modelled as the character LF; Python's additional universal
line boundaries and str.strip's unicode whitespace beyond the ASCII set are
not exercised by any statement below.
-/

/-- The whitespace characters recognised by Python's `str.strip()`
(ASCII fragment: space, tab, LF, CR, vertical tab, form feed). -/
def pyWhitespace : List Char := [' ', '\t', '\n', '\x0d', '\x0b', '\x0c']

/-- Whether a character is Python whitespace. -/
def isPyWs (c : Char) : Bool := pyWhitespace.contains c

/-- Python's `str.strip()`: remove leading and trailing whitespace characters. -/
def pyStrip (s : String) : String :=
  String.mk (((s.toList.dropWhile isPyWs).reverse.dropWhile isPyWs).reverse)

/-- Split a character list at every LF, keeping empty segments
(the semantics of `"x".split("\n")`). -/
def splitAtNl : List Char → List (List Char)
  | [] => [[]]
  | c :: tl =>
      match splitAtNl tl with
      | [] => [[c]]
      | hd :: rest => if c = '\n' then [] :: hd :: rest else (c :: hd) :: rest

/-- Python's `str.splitlines()` restricted to LF line boundaries:
`""` gives `[]`, a trailing newline does not produce a final empty entry. -/
def pySplitlines (s : String) : List String :=
  if s = "" then []
  else
    let parts := (splitAtNl s.toList).map String.mk
    if s.toList.getLast? = some '\n' then parts.dropLast else parts

/-- `ExternalLinter` from `src/code_lint.py`: a display name plus the
invocation template (program followed by fixed arguments). -/
structure ExternalLinter where
  name : String
  command : List String
deriving DecidableEq, Repr

/-- The outcome of one `subprocess.run` call: either the child process
completed with an exit status and captured stdout/stderr text, or the
call raised an exception (missing executable, permission error,
undecodable output, ...) whose `str(e)` is `message`. -/
inductive ExecOutcome where
  | completed (returncode : Int) (stdout : String) (stderr : String)
  | failed (message : String)
deriving DecidableEq, Repr

/-- One per-linter result dictionary `{"success": ..., "issues": ..., "message": ...}`.
`issues = none` models a dictionary in which the `"issues"` key is absent
(as produced by `lint_file` for an unknown linter name). -/
structure LintResult where
  success : Bool
  issues : Option (List String)
  message : String
deriving DecidableEq, Repr

/-- `ExternalLinter.run` (src/code_lint.py lines 17-44): execute
`self.command + [filepath]`, classify exit status 0 as clean, nonzero as
issues found with `(stdout + stderr).strip().splitlines()` as the issue
lines, and any raised exception as an error result. -/
def ExternalLinter.run (l : ExternalLinter) (exec : List String → ExecOutcome)
    (filepath : String) : LintResult :=
  match exec (l.command ++ [filepath]) with
  | .completed rc stdout stderr =>
      if rc = 0 then
        { success := true, issues := some [], message := "No issues found by " ++ l.name }
      else
        { success := false
          issues := some (pySplitlines (pyStrip (stdout ++ stderr)))
          message := l.name ++ " found issues" }
  | .failed msg =>
      { success := false, issues := some []
        message := "Error running " ++ l.name ++ ": " ++ msg }

/-- Lookup in an insertion-ordered association list, as Python's `dict.get`. -/
def dictLookup {α : Type} : List (String × α) → String → Option α
  | [], _ => none
  | (k, v) :: tl, n => if k = n then some v else dictLookup tl n

/-- Python's `dict[key] = value`: overwrite keeps the key's original
position, a new key is appended at the end (insertion order). -/
def dictInsert {α : Type} : List (String × α) → String → α → List (String × α)
  | [], k, v => [(k, v)]
  | (k1, v1) :: tl, k, v =>
      if k1 = k then (k, v) :: tl else (k1, v1) :: dictInsert tl k v

/-- The initial registry of `CodeLintService.__init__`:
one default linter, pylint in errors-only mode. -/
def initLinters : List (String × ExternalLinter) :=
  [("pylint", ⟨"pylint", ["pylint", "-E"]⟩)]

/-- `CodeLintService.add_linter` (lines 91-92): unconditional insert/overwrite,
no validation of `name` or `command`. -/
def add_linter (linters : List (String × ExternalLinter)) (name : String)
    (command : List String) : List (String × ExternalLinter) :=
  dictInsert linters name ⟨name, command⟩

/-- `CodeLintService.list_linters` (lines 94-95): the registry's keys in order. -/
def list_linters (linters : List (String × ExternalLinter)) : List String :=
  linters.map Prod.fst

/-- The `add_custom_linter` MCP tool (lines 144-157): registers and returns
`{"success": True, "message": f"Added linter: {name}"}` unconditionally. -/
def add_custom_linter (linters : List (String × ExternalLinter)) (name : String)
    (command : List String) : List (String × ExternalLinter) × (Bool × String) :=
  (add_linter linters name command, (true, "Added linter: " ++ name))

/-- The top-level report dictionary of `lint_file`: `results = none` models
the file-not-found report, in which the `"results"` key is absent. -/
structure Report where
  success : Bool
  results : Option (List (String × LintResult))
  message : String
deriving DecidableEq, Repr

/-- A `lint_file` call paired with the argv of every child process it
spawned, in order. -/
structure LintCall where
  report : Report
  spawned : List (List String)
deriving DecidableEq, Repr

/-- The per-name entry `lint_file` synthesizes when `name` has no registry
entry (lines 63-67); note the dictionary carries no `"issues"` key. -/
def unknownLinterResult (name : String) : LintResult :=
  { success := false, issues := none, message := "Unknown linter: " ++ name }

/-- `linters = linters or list(self.linters.keys())` (line 59): both `None`
and the empty list are falsy in Python, so both select every registered
linter; a non-empty list is used as given. -/
def selectNames (linters : List (String × ExternalLinter))
    (sel : Option (List String)) : List String :=
  match sel with
  | none => list_linters linters
  | some [] => list_linters linters
  | some names => names

/-- One iteration of the `for name in linters` loop of `lint_file`
(lines 62-71), threading the results dictionary and the spawn log. -/
def lintStep (linters : List (String × ExternalLinter))
    (exec : List String → ExecOutcome) (filepath : String)
    (acc : List (String × LintResult) × List (List String)) (name : String) :
    List (String × LintResult) × List (List String) :=
  match dictLookup linters name with
  | none => (dictInsert acc.1 name (unknownLinterResult name), acc.2)
  | some l =>
      (dictInsert acc.1 name (l.run exec filepath), acc.2 ++ [l.command ++ [filepath]])

/-- `CodeLintService.lint_file` (lines 55-79): fail fast when the path does
not exist; otherwise run each selected linter (or an unknown-name entry),
aggregate `success` as the conjunction of per-linter `success`. -/
def lint_file (linters : List (String × ExternalLinter))
    (exec : List String → ExecOutcome) (fsExists : String → Bool)
    (filepath : String) (sel : Option (List String)) : LintCall :=
  if fsExists filepath = false then
    { report := { success := false, results := none
                  message := "File not found: " ++ filepath }
      spawned := [] }
  else
    let names := selectNames linters sel
    let folded := names.foldl (lintStep linters exec filepath) ([], [])
    { report := { success := folded.1.all (fun p => p.2.success)
                  results := some folded.1
                  message := "Linting completed for " ++ filepath }
      spawned := folded.2 }

set_option linter.unusedVariables false in
/-- `CodeLintService.lint_code` (lines 81-89): write `code` to a fresh
temporary path, run the path-based logic on it, then unlink the temporary
file. Returns the call together with the file-existence map after the
unlink. The `code` string reaches the linters only through the external
process, i.e. through the `exec` oracle. -/
def lint_code (linters : List (String × ExternalLinter))
    (exec : List String → ExecOutcome) (fsExists : String → Bool)
    (code : String) (tempPath : String) (sel : Option (List String)) :
    LintCall × (String → Bool) :=
  let fsWithTemp : String → Bool := fun p => if p = tempPath then true else fsExists p
  let call := lint_file linters exec fsWithTemp tempPath sel
  (call, fun p => if p = tempPath then false else fsWithTemp p)

/-- `os.unlink` over a file set: removes the path, raises `FileNotFoundError`
if the path is not present. -/
def osUnlink (files : List String) (p : String) : Except String (List String) :=
  if p ∈ files then .ok (files.filter (fun q => q ≠ p))
  else .error ("FileNotFoundError: " ++ p)

/-- The `try/finally` of `lint_code` (lines 86-89) with the delegated
`lint_file` call abstracted as `delegated` (a normal report or a raised
exception): the finally block always runs `os.unlink(temp_path)`, and in
Python an exception raised by the finally block supersedes the in-flight
result. -/
def lintCodeFinally (delegated : Except String Report) (files : List String)
    (tempPath : String) : Except String Report × List String :=
  match osUnlink files tempPath with
  | .ok files2 => (delegated, files2)
  | .error e => (.error e, files)

/-- The `while e > 0` loop of `fast_power` (src/calculate.py lines 94-104).
`e` is non-negative after the guard, so it is carried as a `Nat`; Python's
`%` on integers is floor-mod (`Int.fmod`) and `//= 2` on a non-negative
integer is `Nat` division. -/
def fastPowerLoop (mod : Option Int) (e : Nat) (b result : Int) : Int :=
  if h : e = 0 then result
  else
    let result1 :=
      if e % 2 = 1 then
        match mod with
        | some m => (result * b).fmod m
        | none => result * b
      else result
    let b1 :=
      match mod with
      | some m => (b * b).fmod m
      | none => b * b
    fastPowerLoop mod (e / 2) b1 result1
termination_by e
decreasing_by exact Nat.div_lt_self (Nat.pos_of_ne_zero h) (by decide)

/-- `fast_power` (src/calculate.py lines 85-107): raises `ValueError` on a
negative exponent, otherwise runs the square-and-multiply loop starting
from `result = 1`. -/
def fast_power (base exponent : Int) (mod : Option Int) : Except String Int :=
  if exponent < 0 then
    .error "Exponent must be non-negative for fast_power."
  else
    .ok (fastPowerLoop mod exponent.toNat base 1)

/-- Whether a line is blank (empty or whitespace-only). -/
def isBlankLine (s : String) : Bool := s.toList.all isPyWs

/-- Modelled from the spec, for refinement comparison with
`ExternalLinter.run`: the raw output lines are the concatenation of
standard output and standard error, split into one entry per
newline-delimited line, trimmed of leading and trailing blank lines. -/
def specRawOutputLines (stdout stderr : String) : List String :=
  ((((pySplitlines (stdout ++ stderr)).dropWhile isBlankLine).reverse).dropWhile
    isBlankLine).reverse

/-- The per-name result `lint_file` records for `name`: the synthesized
unknown-linter entry when the registry has no such key, otherwise the
outcome of running that linter. -/
def resultFor (linters : List (String × ExternalLinter))
    (exec : List String → ExecOutcome) (filepath : String) (name : String) :
    LintResult :=
  match dictLookup linters name with
  | none => unknownLinterResult name
  | some l => l.run exec filepath

/-- Exiting the loop: with `e = 0` the accumulated result is returned. -/
theorem fastPowerLoop_zero (mod : Option Int) (b r : Int) :
    fastPowerLoop mod 0 b r = r := by
  rw [fastPowerLoop.eq_def]
  simp

/-- One iteration of the `while e > 0` loop. -/
theorem fastPowerLoop_step (mod : Option Int) (e : Nat) (b r : Int) (h : e ≠ 0) :
    fastPowerLoop mod e b r =
      fastPowerLoop mod (e / 2)
        (match mod with
         | some m => (b * b).fmod m
         | none => b * b)
        (if e % 2 = 1 then
          match mod with
          | some m => (r * b).fmod m
          | none => r * b
         else r) := by
  conv_lhs => rw [fastPowerLoop.eq_def]
  simp [h]

/-- Inserting a key makes it look up to the inserted value. -/
theorem dictLookup_dictInsert_self {α : Type} (d : List (String × α)) (k : String)
    (v : α) : dictLookup (dictInsert d k v) k = some v := by
  induction d with
  | nil => simp [dictInsert, dictLookup]
  | cons hd tl ih =>
      obtain ⟨k1, v1⟩ := hd
      by_cases hk : k1 = k
      · simp [dictInsert, hk, dictLookup]
      · simp [dictInsert, hk, dictLookup, ih]

/-- Inserting a key leaves every other key's lookup unchanged. -/
theorem dictLookup_dictInsert_ne {α : Type} (d : List (String × α)) (k n : String)
    (v : α) (hn : n ≠ k) : dictLookup (dictInsert d k v) n = dictLookup d n := by
  induction d with
  | nil => simp [dictInsert, dictLookup, Ne.symm hn]
  | cons hd tl ih =>
      obtain ⟨k1, v1⟩ := hd
      by_cases hk : k1 = k
      · subst hk
        simp [dictInsert, dictLookup, Ne.symm hn]
      · simp only [dictInsert, hk, if_false, dictLookup, ih]

/-- An inserted key is among the dictionary's keys. -/
theorem mem_fst_dictInsert {α : Type} (d : List (String × α)) (k : String) (v : α) :
    k ∈ (dictInsert d k v).map Prod.fst := by
  induction d with
  | nil => simp [dictInsert]
  | cons hd tl ih =>
      obtain ⟨k1, v1⟩ := hd
      by_cases hk : k1 = k
      · simp [dictInsert, hk]
      · simp only [dictInsert, hk, if_false, List.map_cons, List.mem_cons]
        exact Or.inr ih

/-- After the linting loop, every processed name (and every name already
correctly recorded in the accumulator) looks up to its `resultFor` value. -/
theorem lintFold_lookup (linters : List (String × ExternalLinter))
    (exec : List String → ExecOutcome) (filepath : String) :
    ∀ (names : List String) (acc : List (String × LintResult) × List (List String))
      (n : String),
      (n ∈ names ∨ dictLookup acc.1 n = some (resultFor linters exec filepath n)) →
      dictLookup (names.foldl (lintStep linters exec filepath) acc).1 n =
        some (resultFor linters exec filepath n) := by
  intro names
  induction names with
  | nil =>
      intro acc n h
      simpa using h.resolve_left (by simp)
  | cons m rest ih =>
      intro acc n h
      simp only [List.foldl_cons]
      apply ih
      by_cases hmem : n ∈ rest
      · exact Or.inl hmem
      · right
        rcases h with h | h
        · have hnm : n = m := by
            rcases List.mem_cons.mp h with h1 | h1
            · exact h1
            · exact absurd h1 hmem
          subst hnm
          unfold lintStep resultFor
          cases hl : dictLookup linters n with
          | none => simpa [hl] using dictLookup_dictInsert_self acc.1 n _
          | some l => simpa [hl] using dictLookup_dictInsert_self acc.1 n _
        · by_cases hnm : n = m
          · subst hnm
            unfold lintStep resultFor
            cases hl : dictLookup linters n with
            | none => simpa [hl] using dictLookup_dictInsert_self acc.1 n _
            | some l => simpa [hl] using dictLookup_dictInsert_self acc.1 n _
          · unfold lintStep
            cases hl : dictLookup linters m with
            | none => simpa [hl, dictLookup_dictInsert_ne acc.1 m n _ hnm] using h
            | some l => simpa [hl, dictLookup_dictInsert_ne acc.1 m n _ hnm] using h

/-- The spawn log of the linting loop: one child process per selected name
that is present in the registry, in selection order, with `filepath`
appended to the registered invocation. -/
theorem lintFold_spawned (linters : List (String × ExternalLinter))
    (exec : List String → ExecOutcome) (filepath : String) :
    ∀ (names : List String) (acc : List (String × LintResult) × List (List String)),
      (names.foldl (lintStep linters exec filepath) acc).2 =
        acc.2 ++ names.filterMap
          (fun n => (dictLookup linters n).map (fun l => l.command ++ [filepath])) := by
  intro names
  induction names with
  | nil => intro acc; simp
  | cons m rest ih =>
      intro acc
      simp only [List.foldl_cons, List.filterMap_cons]
      cases hl : dictLookup linters m with
      | none => simpa [lintStep, hl] using ih _
      | some l =>
          rw [ih]
          simp [lintStep, hl]

/-- A linter's result depends on the target path only through the argv
handed to the child process. -/
theorem run_filepath_congr (l : ExternalLinter) (exec : List String → ExecOutcome)
    (tp p : String) (h : ∀ cmd : List String, exec (cmd ++ [tp]) = exec (cmd ++ [p])) :
    l.run exec tp = l.run exec p := by
  unfold ExternalLinter.run
  rw [h l.command]

/-- The results dictionary built by the linting loop is the same for two
target paths on which every child process behaves the same. -/
theorem lintFold_results_congr (linters : List (String × ExternalLinter))
    (exec : List String → ExecOutcome) (tp p : String)
    (h : ∀ cmd : List String, exec (cmd ++ [tp]) = exec (cmd ++ [p])) :
    ∀ (names : List String)
      (acc1 acc2 : List (String × LintResult) × List (List String)),
      acc1.1 = acc2.1 →
      (names.foldl (lintStep linters exec tp) acc1).1 =
        (names.foldl (lintStep linters exec p) acc2).1 := by
  intro names
  induction names with
  | nil => intro acc1 acc2 ha; simpa using ha
  | cons m rest ih =>
      intro acc1 acc2 ha
      simp only [List.foldl_cons]
      apply ih
      unfold lintStep
      cases hl : dictLookup linters m with
      | none => simp [ha]
      | some l => simp [ha, run_filepath_congr l exec tp p h]

/-- C1 counterexample: registering with an empty name and an empty
invocation does not fail with InvalidDefinition — the entry is inserted,
a success confirmation is returned, and the empty name appears in the
subsequent linter listing. -/
theorem C1_counterexample :
    add_custom_linter initLinters "" [] =
      ([("pylint", ⟨"pylint", ["pylint", "-E"]⟩), ("", ⟨"", []⟩)],
        (true, "Added linter: ")) ∧
    list_linters (add_custom_linter initLinters "" []).1 = ["pylint", ""] := by
  decide

set_option linter.unusedVariables false in
/-- C1 (amended): the registration operation performs no validation at all:
for every registry and every name/invocation — the empty ones included —
it inserts or overwrites the entry, returns the success confirmation
`(true, "Added linter: <name>")`, and the name appears in a subsequent
`list_linters` result; no `InvalidDefinition` failure path exists. -/
theorem C1_registration_never_fails (linters : List (String × ExternalLinter))
    (name : String) (command : List String)
    (h : name = "" ∨ command = []) :
    add_custom_linter linters name command =
      (add_linter linters name command, (true, "Added linter: " ++ name)) ∧
    name ∈ list_linters (add_linter linters name command) := by
  refine ⟨rfl, ?_⟩
  unfold list_linters add_linter
  exact mem_fst_dictInsert linters name ⟨name, command⟩

/-- Witness for C1: the amended theorem applied at the empty name. -/
theorem C1_registration_never_fails_witness :
    ("" = "" ∨ (["echo"] : List String) = []) ∧
    (add_custom_linter initLinters "" ["echo"] =
      (add_linter initLinters "" ["echo"], (true, "Added linter: " ++ "")) ∧
    "" ∈ list_linters (add_linter initLinters "" ["echo"])) :=
  ⟨Or.inl rfl, C1_registration_never_fails initLinters "" ["echo"] (Or.inl rfl)⟩

/-- C2: `ExternalLinter.run` never raises: every underlying execution
failure (the `except Exception` arm) is mapped to a result with
`success = false`, empty issue lines, and a message describing the
failure. -/
theorem C2_run_captures_execution_failure (l : ExternalLinter)
    (exec : List String → ExecOutcome) (filepath msg : String)
    (h : exec (l.command ++ [filepath]) = .failed msg) :
    l.run exec filepath =
      { success := false, issues := some []
        message := "Error running " ++ l.name ++ ": " ++ msg } := by
  unfold ExternalLinter.run
  rw [h]

/-- Witness for C2: a missing executable maps to the error result. -/
theorem C2_run_captures_execution_failure_witness :
    (ExternalLinter.mk "pylint" ["pylint", "-E"]).run
        (fun _ => .failed "No such file or directory")
        "/f.py" =
      { success := false, issues := some []
        message := "Error running pylint: No such file or directory" } :=
  C2_run_captures_execution_failure ⟨"pylint", ["pylint", "-E"]⟩
    (fun _ => .failed "No such file or directory") "/f.py"
    "No such file or directory" rfl

/-- C5 counterexample: a world in which the target path exists
(`os.path.exists` answers true) but is not readable (a readability oracle
answering false — which `lint_file` never consults, since the code checks
only `os.path.exists`). The claim requires failing fast for every path not
referencing an existing, readable artifact, yet here `lint_file` does not
fail fast: it spawns the selected linter, returns a results mapping, and
reports completion rather than "File not found". -/
theorem C5_counterexample :
    ((fun _ => true) : String → Bool) "/locked.py" = true ∧
    ((fun _ => false) : String → Bool) "/locked.py" = false ∧
    (lint_file initLinters (fun _ => .completed 0 "" "") (fun _ => true)
        "/locked.py" none).report.results =
      some [("pylint", { success := true, issues := some []
                         message := "No issues found by pylint" })] ∧
    (lint_file initLinters (fun _ => .completed 0 "" "") (fun _ => true)
        "/locked.py" none).spawned = [["pylint", "-E", "/locked.py"]] ∧
    (lint_file initLinters (fun _ => .completed 0 "" "") (fun _ => true)
        "/locked.py" none).report.message = "Linting completed for /locked.py" ∧
    "Linting completed for /locked.py" ≠ "File not found: /locked.py" := by
  decide

/-- C5 (amended): for a path that does not exist — `os.path.exists` false,
the only condition the code checks — `lint_file` fails fast: overall
success is false, the message names the path, the results mapping is
absent, and no child process is spawned, for every registry and every
selection. Readability of an existing artifact is not checked: an existing
but unreadable file is handed to the linters instead of failing fast. -/
theorem C5_file_not_found (linters : List (String × ExternalLinter))
    (exec : List String → ExecOutcome) (fs : String → Bool) (fp : String)
    (sel : Option (List String)) (h : fs fp = false) :
    lint_file linters exec fs fp sel =
      { report := { success := false, results := none
                    message := "File not found: " ++ fp }
        spawned := [] } := by
  simp [lint_file, h]

/-- Witness for C5: a nonexistent path with no selection. -/
theorem C5_file_not_found_witness :
    ((fun _ => false) : String → Bool) "/nonexistent/path" = false ∧
    lint_file initLinters (fun _ => .completed 0 "" "") (fun _ => false)
        "/nonexistent/path" none =
      { report := { success := false, results := none
                    message := "File not found: /nonexistent/path" }
        spawned := [] } :=
  ⟨rfl, C5_file_not_found initLinters (fun _ => .completed 0 "" "")
    (fun _ => false) "/nonexistent/path" none rfl⟩

/-- C10: `fast_power` contradicts its own docstring
("If mod is provided, computes (base ** exponent) % mod efficiently"):
at base 2, exponent 0, mod 1 it returns 1, while `(2 ** 0) % 1` is 0. -/
theorem C10_fast_power_mod_one_bug :
    fast_power 2 0 (some 1) = .ok 1 ∧
    ((2 : Int) ^ (0 : Nat)).fmod 1 = 0 ∧ (1 : Int) ≠ 0 := by
  refine ⟨?_, by decide, by decide⟩
  norm_num [fast_power, fastPowerLoop_zero]

/-- C3 counterexample: with an existing file and a selection that is
present but empty, the default pylint linter — which the empty selection
does not name — is still resolved and run (its child process is spawned
and its result reported), because an empty Python list is falsy. -/
theorem C3_counterexample :
    (lint_file initLinters (fun _ => .completed 0 "" "") (fun _ => true) "/f.py"
      (some [])).spawned = [["pylint", "-E", "/f.py"]] ∧
    [["pylint", "-E", "/f.py"]] ≠ ([] : List (List String)) := by
  decide

/-- C3 (amended): if the selected-names argument is absent or is the empty
list, every registered linter is selected (in registration order); if it
is present and non-empty, exactly the names given are used, in the order
given — each registered one spawning exactly its command on the target,
and no other registered linter running. -/
theorem C3_selection_resolution (linters : List (String × ExternalLinter))
    (exec : List String → ExecOutcome) (fs : String → Bool) (fp : String)
    (l : List String) (hfp : fs fp = true) (hl : l ≠ []) :
    selectNames linters none = list_linters linters ∧
    selectNames linters (some []) = list_linters linters ∧
    selectNames linters (some l) = l ∧
    (lint_file linters exec fs fp (some l)).spawned =
      l.filterMap (fun n => (dictLookup linters n).map (fun lt => lt.command ++ [fp])) ∧
    (lint_file linters exec fs fp none).spawned =
      (list_linters linters).filterMap
        (fun n => (dictLookup linters n).map (fun lt => lt.command ++ [fp])) := by
  have hsel : selectNames linters (some l) = l := by
    cases l with
    | nil => exact absurd rfl hl
    | cons a tl => rfl
  refine ⟨rfl, rfl, hsel, ?_, ?_⟩
  · simp only [lint_file, hfp]
    simp only [Bool.true_eq_false, if_false, hsel]
    simpa using lintFold_spawned linters exec fp l ([], [])
  · simp only [lint_file, hfp]
    simp only [Bool.true_eq_false, if_false, selectNames]
    simpa using lintFold_spawned linters exec fp (list_linters linters) ([], [])

/-- Witness for C3: the amended theorem at the default registry with a
one-element selection naming the registered pylint linter. -/
theorem C3_selection_resolution_witness :
    ((fun _ => true) : String → Bool) "/f.py" = true ∧
    (["pylint"] : List String) ≠ [] ∧
    (lint_file initLinters (fun _ => .completed 0 "" "") (fun _ => true) "/f.py"
      (some ["pylint"])).spawned =
      ["pylint"].filterMap
        (fun n => (dictLookup initLinters n).map (fun lt => lt.command ++ ["/f.py"])) :=
  ⟨rfl, by decide,
    (C3_selection_resolution initLinters (fun _ => .completed 0 "" "")
      (fun _ => true) "/f.py" ["pylint"] rfl (by decide)).2.2.2.1⟩

/-- C4 counterexample: a linter exiting nonzero with stdout
" E001: bad thing" (leading space, no blank line anywhere). The code
strips the whole captured text before splitting, yielding
["E001: bad thing"], while the claimed policy — split into lines, then
trim leading/trailing blank lines — keeps the leading space and yields
[" E001: bad thing"]. -/
theorem C4_counterexample :
    (ExternalLinter.mk "pylint" ["pylint", "-E"]).run
        (fun _ => .completed 1 " E001: bad thing" "") "/f.py" =
      { success := false, issues := some ["E001: bad thing"]
        message := "pylint found issues" } ∧
    specRawOutputLines " E001: bad thing" "" = [" E001: bad thing"] ∧
    (some ["E001: bad thing"] : Option (List String)) ≠ some [" E001: bad thing"] := by
  decide

/-- C4 (amended): exit status zero yields the clean result with empty
issue lines and message "No issues found by <name>"; nonzero exit status
yields message "<name> found issues" and issue lines equal to the
concatenation of captured stdout and stderr, stripped of leading and
trailing whitespace as a whole and then split at newlines — so an
analyzer writing exactly "E001: bad thing" yields ["E001: bad thing"]. -/
theorem C4_classification (l : ExternalLinter) (exec : List String → ExecOutcome)
    (fp : String) (rc : Int) (out err : String)
    (h : exec (l.command ++ [fp]) = .completed rc out err) :
    (rc = 0 → l.run exec fp =
      { success := true, issues := some []
        message := "No issues found by " ++ l.name }) ∧
    (rc ≠ 0 → l.run exec fp =
      { success := false, issues := some (pySplitlines (pyStrip (out ++ err)))
        message := l.name ++ " found issues" }) ∧
    pySplitlines (pyStrip "E001: bad thing") = ["E001: bad thing"] := by
  refine ⟨?_, ?_, by decide⟩ <;> intro h0 <;> unfold ExternalLinter.run <;>
    rw [h] <;> simp [h0]

/-- Witness for C4: the amended theorem at exit status 1 with the claim's
example output. -/
theorem C4_classification_witness :
    (ExternalLinter.mk "pylint" ["pylint", "-E"]).run
        (fun _ => .completed 1 "E001: bad thing" "") "/f.py" =
      { success := false, issues := some ["E001: bad thing"]
        message := "pylint found issues" } := by
  have h := (C4_classification ⟨"pylint", ["pylint", "-E"]⟩
    (fun _ => .completed 1 "E001: bad thing" "") "/f.py" 1 "E001: bad thing" ""
    rfl).2.1 (by decide)
  rw [h]
  decide

/-- C6: failure isolation on an existing target with a non-empty explicit
selection. Every selected name appears in the results: a name absent from
the registry contributes the synthesized entry
(success false, message "Unknown linter: <name>", no issues key) instead
of being skipped or aborting, while every selected registered linter still
has its process spawned and its run result recorded — no single entry
prevents the others. -/
theorem C6_failure_isolation (linters : List (String × ExternalLinter))
    (exec : List String → ExecOutcome) (fs : String → Bool) (fp : String)
    (l : List String) (hfp : fs fp = true) (hl : l ≠ []) :
    ∃ rs, (lint_file linters exec fs fp (some l)).report.results = some rs ∧
      ∀ n ∈ l,
        dictLookup rs n = some (resultFor linters exec fp n) ∧
        (dictLookup linters n = none →
          dictLookup rs n = some (unknownLinterResult n)) ∧
        (∀ lt, dictLookup linters n = some lt →
          dictLookup rs n = some (lt.run exec fp) ∧
          (lt.command ++ [fp]) ∈ (lint_file linters exec fs fp (some l)).spawned) := by
  have hsel : selectNames linters (some l) = l := by
    cases l with
    | nil => exact absurd rfl hl
    | cons a tl => rfl
  refine ⟨(l.foldl (lintStep linters exec fp) ([], [])).1, ?_, ?_⟩
  · simp only [lint_file, hfp, Bool.true_eq_false, if_false, hsel]
  · intro n hn
    have hres := lintFold_lookup linters exec fp l ([], []) n (Or.inl hn)
    refine ⟨hres, ?_, ?_⟩
    · intro hnone
      rw [hres]
      unfold resultFor
      rw [hnone]
    · intro lt hlt
      constructor
      · rw [hres]
        unfold resultFor
        rw [hlt]
      · simp only [lint_file, hfp, Bool.true_eq_false, if_false, hsel]
        rw [lintFold_spawned linters exec fp l ([], [])]
        simp only [List.nil_append]
        exact List.mem_filterMap.mpr ⟨n, hn, by rw [hlt]; rfl⟩

/-- Witness for C6: one unknown name and one registered name selected
together; the unknown one is reported, the registered one runs. -/
theorem C6_failure_isolation_witness :
    ((fun _ => true) : String → Bool) "/f.py" = true ∧
    (["not_registered", "pylint"] : List String) ≠ [] ∧
    ∃ rs, (lint_file initLinters (fun _ => .completed 0 "" "") (fun _ => true)
        "/f.py" (some ["not_registered", "pylint"])).report.results = some rs ∧
      ∀ n ∈ (["not_registered", "pylint"] : List String),
        dictLookup rs n =
          some (resultFor initLinters (fun _ => .completed 0 "" "") "/f.py" n) ∧
        (dictLookup initLinters n = none →
          dictLookup rs n = some (unknownLinterResult n)) ∧
        (∀ lt, dictLookup initLinters n = some lt →
          dictLookup rs n = some (lt.run (fun _ => .completed 0 "" "") "/f.py") ∧
          (lt.command ++ ["/f.py"]) ∈
            (lint_file initLinters (fun _ => .completed 0 "" "") (fun _ => true)
              "/f.py" (some ["not_registered", "pylint"])).spawned) :=
  ⟨rfl, by decide,
    C6_failure_isolation initLinters (fun _ => .completed 0 "" "")
      (fun _ => true) "/f.py" ["not_registered", "pylint"] rfl (by decide)⟩

/-- C7 counterexample: the release is not safe to perform when the file was
already removed — with the temporary path absent from the file set, the
finally block's `os.unlink` raises FileNotFoundError, which supersedes the
delegated call's normal report instead of returning it. -/
theorem C7_counterexample :
    lintCodeFinally
        (.ok { success := true, results := some [], message := "m" })
        [] "/tmp/lint.py" =
      (.error "FileNotFoundError: /tmp/lint.py", []) := by
  simp [lintCodeFinally, osUnlink]

/-- C7 (amended): on every exit path of `lint_code` — a normal report or
an exception from the delegated path-based logic — the finally block runs
`os.unlink` before the call returns, and whenever the temporary file still
exists at that point it is removed, so it no longer exists afterwards and
the delegated outcome is returned unchanged; the concrete `lint_code`
likewise reports the temporary path as gone. The release is not
idempotent-safe: `os.unlink` raises if the file was already removed. -/
theorem C7_release_on_exit (delegated : Except String Report)
    (files : List String) (tempPath : String)
    (linters : List (String × ExternalLinter))
    (exec : List String → ExecOutcome) (fsExists : String → Bool)
    (code : String) (sel : Option (List String))
    (h : tempPath ∈ files) :
    (lintCodeFinally delegated files tempPath).1 = delegated ∧
    tempPath ∉ (lintCodeFinally delegated files tempPath).2 ∧
    (lint_code linters exec fsExists code tempPath sel).2 tempPath = false := by
  unfold lintCodeFinally osUnlink
  rw [if_pos h]
  refine ⟨rfl, ?_, ?_⟩
  · intro hmem
    simp only [List.mem_filter] at hmem
    simpa using hmem.2
  · simp [lint_code]

/-- Witness for C7: a temp file present in the file set; an exceptional
delegated outcome is passed through and the file is removed. -/
theorem C7_release_on_exit_witness :
    ("/tmp/lint.py" : String) ∈ ["/tmp/lint.py", "/other"] ∧
    ((lintCodeFinally (.error "boom") ["/tmp/lint.py", "/other"]
        "/tmp/lint.py").1 = .error "boom" ∧
      "/tmp/lint.py" ∉ (lintCodeFinally (.error "boom")
        ["/tmp/lint.py", "/other"] "/tmp/lint.py").2 ∧
      (lint_code initLinters (fun _ => .completed 0 "" "") (fun _ => false)
        "x = 1" "/tmp/lint.py" none).2 "/tmp/lint.py" = false) :=
  ⟨by decide,
    C7_release_on_exit (.error "boom") ["/tmp/lint.py", "/other"] "/tmp/lint.py"
      initLinters (fun _ => .completed 0 "" "") (fun _ => false) "x = 1" none
      (by decide)⟩

/-- C8: round trip. If the target file exists and every child process
behaves identically on the materialized temporary path and on a path `p`
holding exactly the same content, then `lint_code` produces the same
report as `lint_file` on `p` — same overall success and identical
per-linter results — differing only in the message naming the target. -/
theorem C8_round_trip (linters : List (String × ExternalLinter))
    (exec : List String → ExecOutcome) (fsExists : String → Bool)
    (code tempPath p : String) (sel : Option (List String))
    (hp : fsExists p = true)
    (hexec : ∀ cmd : List String, exec (cmd ++ [tempPath]) = exec (cmd ++ [p])) :
    (lint_code linters exec fsExists code tempPath sel).1.report.success =
      (lint_file linters exec fsExists p sel).report.success ∧
    (lint_code linters exec fsExists code tempPath sel).1.report.results =
      (lint_file linters exec fsExists p sel).report.results := by
  have hres := lintFold_results_congr linters exec tempPath p hexec
    (selectNames linters sel) ([], []) ([], []) rfl
  simp [lint_code, lint_file, hp, hres]

/-- Witness for C8: constant oracles; the temp-based and path-based
reports agree on success and results. -/
theorem C8_round_trip_witness :
    ((fun _ => true) : String → Bool) "/f.py" = true ∧
    ((lint_code initLinters (fun _ => .completed 0 "" "") (fun _ => true)
        "x = 1" "/tmp/t.py" none).1.report.success =
      (lint_file initLinters (fun _ => .completed 0 "" "") (fun _ => true)
        "/f.py" none).report.success ∧
    (lint_code initLinters (fun _ => .completed 0 "" "") (fun _ => true)
        "x = 1" "/tmp/t.py" none).1.report.results =
      (lint_file initLinters (fun _ => .completed 0 "" "") (fun _ => true)
        "/f.py" none).report.results) :=
  ⟨rfl, C8_round_trip initLinters (fun _ => .completed 0 "" "") (fun _ => true)
    "x = 1" "/tmp/t.py" "/f.py" none rfl (fun _ => rfl)⟩

/-- C9: for every `lint_file` call on an existing target, the results
mapping is present and the top-level success holds iff every contained
per-linter result has `success = true`; in particular it is the
conjunction over all collected results and is true when the collected
result set is empty. -/
theorem C9_overall_success_conjunction (linters : List (String × ExternalLinter))
    (exec : List String → ExecOutcome) (fs : String → Bool) (fp : String)
    (sel : Option (List String)) (h : fs fp = true) :
    ∃ rs, (lint_file linters exec fs fp sel).report.results = some rs ∧
      ((lint_file linters exec fs fp sel).report.success = true ↔
        ∀ pr ∈ rs, pr.2.success = true) ∧
      (rs = [] → (lint_file linters exec fs fp sel).report.success = true) := by
  refine ⟨((selectNames linters sel).foldl (lintStep linters exec fp) ([], [])).1,
    ?_, ?_, ?_⟩
  · simp only [lint_file, h, Bool.true_eq_false, if_false]
  · simp only [lint_file, h, Bool.true_eq_false, if_false]
    exact List.all_eq_true
  · intro hrs
    simp only [lint_file, h, Bool.true_eq_false, if_false, hrs, List.all_nil]

/-- Witness for C9: the default registry on an existing file with a clean
linter run. -/
theorem C9_overall_success_conjunction_witness :
    ((fun _ => true) : String → Bool) "/f.py" = true ∧
    ∃ rs, (lint_file initLinters (fun _ => .completed 0 "" "") (fun _ => true)
        "/f.py" none).report.results = some rs ∧
      ((lint_file initLinters (fun _ => .completed 0 "" "") (fun _ => true)
        "/f.py" none).report.success = true ↔
        ∀ pr ∈ rs, pr.2.success = true) ∧
      (rs = [] → (lint_file initLinters (fun _ => .completed 0 "" "")
        (fun _ => true) "/f.py" none).report.success = true) :=
  ⟨rfl, C9_overall_success_conjunction initLinters (fun _ => .completed 0 "" "")
    (fun _ => true) "/f.py" none rfl⟩

/-! Sanity evaluations of the embedded definitions on concrete inputs. -/

example : pyStrip "  E001: bad thing \n" = "E001: bad thing" := by decide
example : pySplitlines "a\nb\n" = ["a", "b"] := by decide
example : pySplitlines "" = [] := by decide
example : pySplitlines "\n" = [""] := by decide
example : pySplitlines (pyStrip " E001") = ["E001"] := by decide
example : specRawOutputLines " E001" "" = [" E001"] := by decide
example :
    (lint_file initLinters (fun _ => .completed 0 "" "") (fun _ => true)
      "/f.py" (some [])).spawned = [["pylint", "-E", "/f.py"]] := by decide
example :
    (lint_file initLinters (fun _ => .completed 0 "" "") (fun _ => true)
      "/f.py" (some [])).report.results =
    some [("pylint", ⟨true, some [], "No issues found by pylint"⟩)] := by decide
example :
    (lint_file initLinters (fun _ => .completed 1 "E001: bad thing" "")
      (fun _ => true) "/f.py" none).report.success = false := by decide

example : fast_power 2 0 (some 1) = .ok 1 := by
  norm_num [fast_power, fastPowerLoop_zero]
example : fast_power 2 10 none = .ok 1024 := by
  norm_num [fast_power]
  show fastPowerLoop none 10 2 1 = 1024
  rw [fastPowerLoop_step _ _ _ _ (by decide)]
  norm_num
  rw [fastPowerLoop_step _ _ _ _ (by decide)]
  norm_num
  rw [fastPowerLoop_step _ _ _ _ (by decide)]
  norm_num
  rw [fastPowerLoop_step _ _ _ _ (by decide)]
  norm_num [fastPowerLoop_zero]
example : fast_power (-2) 3 (some 5) = .ok 2 := by
  norm_num [fast_power]
  show fastPowerLoop (some 5) 3 (-2) 1 = 2
  rw [fastPowerLoop_step _ _ _ _ (by decide),
    fastPowerLoop_step _ _ _ _ (by decide), fastPowerLoop_zero]
  decide
example : fast_power 2 (-1) none = .error "Exponent must be non-negative for fast_power." := by
  norm_num [fast_power]
